import Mathlib

/-!
Verification of the MIDI synth abstraction library (`src/midi-synths.js`).

Shallow embedding conventions:
* JavaScript numbers are modelled as `ℚ` (callers may pass negative,
  fractional or out-of-range values; the claims quantify over those).
* A MIDI message is a `List ℚ` (the argument of `midiOutput.send`); each send
  operation returns the list of messages it writes to the bound port, so an
  operation that hits the `if (!this.midiOutput) return;` guard returns `[]`.
  All operations are total Lean functions, mirroring that nothing in the
  source throws past the public surface.
* `playNote`'s `setTimeout` is modelled by returning, next to the immediate
  messages, the scheduled one-shot `Timer` (delay and captured note
  argument); `Timer.fire` evaluates the timer callback against the endpoint
  state at fire time, since the closure re-reads `this.midiOutput` then.
* `MidiManager` methods are explicit state passing; the platform response to
  `navigator.requestMIDIAccess` (absent API / rejected promise / granted
  access) is a `PlatformMIDI` parameter of `MidiManager.init`, which embeds
  the source's `initialize` (the try/catch becomes a match on that outcome;
  the `onstatechange` subscription is installed on the platform access
  object and carries no manager state of its own).
-/

namespace Chasm

/-- A platform MIDI output port: the capability surface the library uses is
`{ name, send(bytes) }`; sends are recorded as return values, so the port
itself is just its name. -/
structure Port where
  name : String
deriving DecidableEq

/-- The platform access object granted by `navigator.requestMIDIAccess()`:
the library only reads its enumerable `outputs` collection. -/
structure MIDIAccess where
  outputs : List Port
deriving DecidableEq

/-- State of `MidiManager` (its four instance fields, with the
`onStateChange` callback slot tracked only by presence). -/
structure MidiManager where
  midiAccess : Option MIDIAccess
  midiOutput : Option Port
  devices : List Port
  onStateChange : Option Unit
deriving DecidableEq

/-- `new MidiManager()`: all fields null / empty. -/
def MidiManager.construct : MidiManager :=
  ⟨none, none, [], none⟩

/-- Outcome of the platform MIDI bootstrap inside `initialize`:
`navigator.requestMIDIAccess` missing (the code throws and catches
locally), the access promise rejecting, or access granted. -/
inductive PlatformMIDI where
  | unsupported
  | denied
  | granted (access : MIDIAccess)
deriving DecidableEq

/-- `updateDeviceList()`: rebuild `devices` from the access object's
outputs, or clear it when there is no access handle. -/
def MidiManager.updateDeviceList (m : MidiManager) : MidiManager :=
  match m.midiAccess with
  | some a => { m with devices := a.outputs }
  | none => { m with devices := [] }

/-- Embeds `initialize()`. On `unsupported` the code throws and the catch
returns false with no field assigned; on `denied` the awaited promise
rejects before `this.midiAccess` is assigned, so the catch likewise returns
false with the state untouched. On `granted` the access handle is stored and
`updateDeviceList` runs; the `onstatechange` handler is installed on the
platform access object, not on the manager. -/
def MidiManager.init (m : MidiManager) (platform : PlatformMIDI) :
    Bool × MidiManager :=
  match platform with
  | .unsupported => (false, m)
  | .denied => (false, m)
  | .granted a =>
      let m1 := { m with midiAccess := some a }
      (true, m1.updateDeviceList)

/-- `connect(deviceIndex)`: false without an access handle; otherwise the
`deviceIndex >= 0 && deviceIndex < this.devices.length` guard either binds
`midiOutput` to the array element and returns true, or returns false with no
state change. Array access is `getElem?` (JS indexing yields `undefined`
out of range, `none` here; the guard makes it `some` in the true branch). -/
def MidiManager.connect (m : MidiManager) (deviceIndex : ℤ) :
    Bool × MidiManager :=
  match m.midiAccess with
  | none => (false, m)
  | some _ =>
      if 0 ≤ deviceIndex ∧ deviceIndex < (m.devices.length : ℤ) then
        (true, { m with midiOutput := m.devices[deviceIndex.toNat]? })
      else
        (false, m)

/-- `disconnect()`: clears the connected port unconditionally. -/
def MidiManager.disconnect (m : MidiManager) : MidiManager :=
  { m with midiOutput := none }

/-- `isConnected()`: `this.midiOutput !== null`. -/
def MidiManager.isConnected (m : MidiManager) : Bool :=
  m.midiOutput.isSome

/-- `getConnectedDeviceName()`: the connected port's name, or null. -/
def MidiManager.getConnectedDeviceName (m : MidiManager) : Option String :=
  m.midiOutput.map Port.name

/-- `getDevices()`: the current device snapshot. -/
def MidiManager.getDevices (m : MidiManager) : List Port :=
  m.devices

/-- The data-byte transformation `Math.max(0, Math.min(127, Math.floor(x)))`
shared by noteOn, noteOff, sendCC and sendProgramChange (`Math.floor` rounds
toward `-∞`, exactly `Int.floor`). -/
def clamp7 (x : ℚ) : ℤ :=
  max 0 (min 127 ⌊x⌋)

/-- State of a `BaseSynth` endpoint: borrowed port reference (null when
unbound) and the stored 0-based channel. -/
structure BaseSynth where
  midiOutput : Option Port
  channel : ℚ
deriving DecidableEq

/-- `new BaseSynth(midiOutput, channel)`: stores the port and
`Math.max(1, Math.min(16, channel)) - 1`. -/
def BaseSynth.construct (midiOutput : Option Port) (channel : ℚ) : BaseSynth :=
  ⟨midiOutput, max 1 (min 16 channel) - 1⟩

/-- `noteOn(note, velocity)`: guard on the port, clamp both data bytes, send
`[0x90 + channel, note, velocity]`. -/
def BaseSynth.noteOn (s : BaseSynth) (note velocity : ℚ) : List (List ℚ) :=
  match s.midiOutput with
  | none => []
  | some _ => [[0x90 + s.channel, (clamp7 note : ℚ), (clamp7 velocity : ℚ)]]

/-- `noteOff(note, velocity = 0)`: guard on the port, clamp both data bytes,
send `[0x80 + channel, note, velocity]` (the source default release velocity
is 0; callers here always pass it explicitly). -/
def BaseSynth.noteOff (s : BaseSynth) (note velocity : ℚ) : List (List ℚ) :=
  match s.midiOutput with
  | none => []
  | some _ => [[0x80 + s.channel, (clamp7 note : ℚ), (clamp7 velocity : ℚ)]]

/-- The one-shot task `playNote` hands to `setTimeout`: the delay in
milliseconds and the captured `note` argument. -/
structure Timer where
  delay : ℚ
  noteArg : ℚ
deriving DecidableEq

/-- `playNote(note, velocity, duration)`: guard on the port, send the noteOn
immediately and schedule the deferred noteOff timer. Returns the immediate
messages and the scheduled timers. -/
def BaseSynth.playNote (s : BaseSynth) (note velocity duration : ℚ) :
    List (List ℚ) × List Timer :=
  match s.midiOutput with
  | none => ([], [])
  | some _ => (s.noteOn note velocity, [⟨duration, note⟩])

/-- The `setTimeout` callback of `playNote`, evaluated when the timer fires:
it re-reads `this.midiOutput` (the endpoint state at fire time, `atFire`)
and calls `this.noteOff(note, 0)` only when a port is still bound. -/
def Timer.fire (t : Timer) (atFire : BaseSynth) : List (List ℚ) :=
  match atFire.midiOutput with
  | none => []
  | some _ => atFire.noteOff t.noteArg 0

/-- `sendCC(controller, value)`: guard on the port, clamp both data bytes,
send `[0xB0 + channel, controller, value]`. -/
def BaseSynth.sendCC (s : BaseSynth) (controller value : ℚ) : List (List ℚ) :=
  match s.midiOutput with
  | none => []
  | some _ => [[0xB0 + s.channel, (clamp7 controller : ℚ), (clamp7 value : ℚ)]]

/-- `sendProgramChange(program)`: guard on the port, clamp the single data
byte, send `[0xC0 + channel, program]`. -/
def BaseSynth.sendProgramChange (s : BaseSynth) (program : ℚ) : List (List ℚ) :=
  match s.midiOutput with
  | none => []
  | some _ => [[0xC0 + s.channel, (clamp7 program : ℚ)]]

/-- `const clampedValue = Math.max(-8192, Math.min(8191, Math.floor(value))) + center`
with `center = 8192`; always in `[0, 16383]`. -/
def pbClamped (value : ℚ) : ℤ :=
  max (-8192) (min 8191 ⌊value⌋) + 8192

/-- `clampedValue & 0x7F`. Since `pbClamped` is in `[0, 16383]`, the 32-bit
JS bitwise AND with `0x7F` is modulo 128. -/
def pbLsb (value : ℚ) : ℤ :=
  pbClamped value % 128

/-- `(clampedValue >> 7) & 0x7F`. Since `pbClamped` is in `[0, 16383]`, the
JS shift is floor division by 128, and the AND is modulo 128. -/
def pbMsb (value : ℚ) : ℤ :=
  pbClamped value / 128 % 128

/-- `sendPitchBend(value)`: guard on the port, send
`[0xE0 + channel, lsb, msb]`. -/
def BaseSynth.sendPitchBend (s : BaseSynth) (value : ℚ) : List (List ℚ) :=
  match s.midiOutput with
  | none => []
  | some _ => [[0xE0 + s.channel, (pbLsb value : ℚ), (pbMsb value : ℚ)]]

/-- `sendRawMIDI(data)`: guard on the port, forward the bytes unvalidated. -/
def BaseSynth.sendRawMIDI (s : BaseSynth) (data : List ℚ) : List (List ℚ) :=
  match s.midiOutput with
  | none => []
  | some _ => [data]

/-- A concrete port for concrete-input statements. -/
def thePort : Port :=
  ⟨"Synth Out"⟩

/-- `b` is an integer in the MIDI data-byte range `[0, 127]` (the property
claimed of outbound byte values). -/
def byteInDataRange (b : ℚ) : Prop :=
  ∃ n : ℤ, (n : ℚ) = b ∧ 0 ≤ n ∧ n ≤ 127

/-- A concrete manager that has been granted access to one device, for
concrete-input statements. -/
def theManager : MidiManager :=
  ⟨some ⟨[thePort]⟩, none, [thePort], none⟩

/-- C1: for every numeric input to noteOn, noteOff, sendCC and
sendProgramChange — negative, fractional and >127 inputs included — every
data byte of the message sent to the bound port is `clamp7` of the input,
and `clamp7` is exactly floor-then-clamp-to-`[0,127]`, so every data byte
is an integer in `[0,127]`. -/
theorem dataBytes_floor_clamped (s : BaseSynth) (p : Port)
    (h : s.midiOutput = some p) (note velocity controller value program : ℚ) :
    (s.noteOn note velocity
        = [[0x90 + s.channel, (clamp7 note : ℚ), (clamp7 velocity : ℚ)]]
      ∧ s.noteOff note velocity
        = [[0x80 + s.channel, (clamp7 note : ℚ), (clamp7 velocity : ℚ)]]
      ∧ s.sendCC controller value
        = [[0xB0 + s.channel, (clamp7 controller : ℚ), (clamp7 value : ℚ)]]
      ∧ s.sendProgramChange program
        = [[0xC0 + s.channel, (clamp7 program : ℚ)]])
    ∧ (∀ x : ℚ, clamp7 x = max 0 (min 127 ⌊x⌋)
        ∧ 0 ≤ clamp7 x ∧ clamp7 x ≤ 127) := by
  refine ⟨⟨?_, ?_, ?_, ?_⟩, ?_⟩
  · simp [BaseSynth.noteOn, h]
  · simp [BaseSynth.noteOff, h]
  · simp [BaseSynth.sendCC, h]
  · simp [BaseSynth.sendProgramChange, h]
  · intro x
    exact ⟨rfl, le_max_left _ _, max_le (by norm_num) (min_le_left _ _)⟩

/-- Witness for C1 at a fractional >127 note, a fractional negative value
and a >127 program, on a concretely bound endpoint. -/
theorem dataBytes_floor_clamped_witness :
    (BaseSynth.construct (some thePort) 1).sendProgramChange 200
      = [[0xC0 + (BaseSynth.construct (some thePort) 1).channel,
          (clamp7 200 : ℚ)]]
    ∧ clamp7 200 = 127
    ∧ (BaseSynth.construct (some thePort) 1).sendCC (415/2) (-13/4)
      = [[0xB0 + (BaseSynth.construct (some thePort) 1).channel,
          (clamp7 (415/2) : ℚ), (clamp7 (-13/4) : ℚ)]]
    ∧ clamp7 (415/2) = 127
    ∧ clamp7 (-13/4) = 0
    ∧ 0 ≤ clamp7 (415/2) ∧ clamp7 (415/2) ≤ 127 := by
  have h := dataBytes_floor_clamped (BaseSynth.construct (some thePort) 1)
    thePort rfl (415/2) 0 (415/2) (-13/4) 200
  exact ⟨h.1.2.2.2, by norm_num [clamp7], h.1.2.2.1, by norm_num [clamp7],
    by norm_num [clamp7], (h.2 (415/2)).2.1, (h.2 (415/2)).2.2⟩

/-- C2: `sendPitchBend v` sends `[0xE0 + ch, lsb, msb]` with both bytes in
`[0,127]`; for integer `v` in `[-8192, 8191]` the 14-bit recomposition
`msb * 128 + lsb` equals `v + 8192` exactly, and outside that range it
saturates to `0` (below) or `16383` (above). -/
theorem sendPitchBend_fourteen_bit (s : BaseSynth) (p : Port)
    (h : s.midiOutput = some p) (v : ℤ) :
    s.sendPitchBend (v : ℚ)
      = [[0xE0 + s.channel, (pbLsb (v : ℚ) : ℚ), (pbMsb (v : ℚ) : ℚ)]]
    ∧ 0 ≤ pbLsb (v : ℚ) ∧ pbLsb (v : ℚ) ≤ 127
    ∧ 0 ≤ pbMsb (v : ℚ) ∧ pbMsb (v : ℚ) ≤ 127
    ∧ (-8192 ≤ v → v ≤ 8191 →
        pbMsb (v : ℚ) * 128 + pbLsb (v : ℚ) = v + 8192)
    ∧ (v < -8192 → pbMsb (v : ℚ) * 128 + pbLsb (v : ℚ) = 0)
    ∧ (8191 < v → pbMsb (v : ℚ) * 128 + pbLsb (v : ℚ) = 16383) := by
  have hc : pbClamped (v : ℚ) = max (-8192) (min 8191 v) + 8192 := by
    simp [pbClamped, Int.floor_intCast]
  refine ⟨by simp [BaseSynth.sendPitchBend, h], ?_, ?_, ?_, ?_, ?_, ?_, ?_⟩
  · simp only [pbLsb, hc, min_def, max_def]; split_ifs <;> omega
  · simp only [pbLsb, hc, min_def, max_def]; split_ifs <;> omega
  · simp only [pbMsb, hc, min_def, max_def]; split_ifs <;> omega
  · simp only [pbMsb, hc, min_def, max_def]; split_ifs <;> omega
  · intro h1 h2
    simp only [pbLsb, pbMsb, hc, min_def, max_def]; split_ifs <;> omega
  · intro h1
    simp only [pbLsb, pbMsb, hc, min_def, max_def]; split_ifs <;> omega
  · intro h1
    simp only [pbLsb, pbMsb, hc, min_def, max_def]; split_ifs <;> omega

/-- Witness for C2: exact recomposition at `v = 100`, saturation at
`v = -9000` and `v = 20000`, on a concretely bound endpoint. -/
theorem sendPitchBend_fourteen_bit_witness :
    (BaseSynth.construct (some thePort) 1).sendPitchBend ((100 : ℤ) : ℚ)
      = [[0xE0 + (BaseSynth.construct (some thePort) 1).channel,
          (pbLsb ((100 : ℤ) : ℚ) : ℚ), (pbMsb ((100 : ℤ) : ℚ) : ℚ)]]
    ∧ pbMsb ((100 : ℤ) : ℚ) * 128 + pbLsb ((100 : ℤ) : ℚ) = 100 + 8192
    ∧ pbMsb ((-9000 : ℤ) : ℚ) * 128 + pbLsb ((-9000 : ℤ) : ℚ) = 0
    ∧ pbMsb ((20000 : ℤ) : ℚ) * 128 + pbLsb ((20000 : ℤ) : ℚ) = 16383 := by
  refine ⟨?_, ?_, ?_, ?_⟩
  · exact (sendPitchBend_fourteen_bit (BaseSynth.construct (some thePort) 1)
      thePort rfl 100).1
  · exact (sendPitchBend_fourteen_bit (BaseSynth.construct (some thePort) 1)
      thePort rfl 100).2.2.2.2.2.1 (by decide) (by decide)
  · exact (sendPitchBend_fourteen_bit (BaseSynth.construct (some thePort) 1)
      thePort rfl (-9000)).2.2.2.2.2.2.1 (by decide)
  · exact (sendPitchBend_fourteen_bit (BaseSynth.construct (some thePort) 1)
      thePort rfl 20000).2.2.2.2.2.2.2 (by decide)

/-- C3 counterexample: as stated — every byte value of every outbound
message in `[0,127]` except pitch bend's composite — the claim already
fails on the status byte of a plain `noteOn(60, 100)` on channel 1: the
message is `[144, 60, 100]` and `144` is not in the data-byte range. -/
theorem outbound_status_byte_exceeds_data_range :
    (BaseSynth.construct (some thePort) 1).noteOn 60 100
      = [[(144 : ℚ), 60, 100]]
    ∧ (144 : ℚ) ∈ ([(144 : ℚ), 60, 100] : List ℚ)
    ∧ ¬ byteInDataRange 144 := by
  refine ⟨?_, by simp, ?_⟩
  · norm_num [BaseSynth.construct, BaseSynth.noteOn, clamp7]
  · rintro ⟨n, hn, h0, h127⟩
    have hn144 : n = 144 := by exact_mod_cast hn
    omega

/-- C3 amended: every data byte (every byte after the status byte) of every
message produced by the five encoding operations noteOn, noteOff, sendCC,
sendProgramChange and sendPitchBend is an integer in `[0,127]` — pitch
bend's 14-bit composite is split into two such 7-bit bytes. Status bytes
carry the message type plus channel and exceed 127 by design, and
sendRawMIDI forwards caller bytes unvalidated, so both sit outside this
invariant. -/
theorem encoded_dataBytes_in_range (s : BaseSynth)
    (note velocity controller value program bend : ℚ) :
    ∀ msg ∈ s.noteOn note velocity ++ s.noteOff note velocity
        ++ s.sendCC controller value ++ s.sendProgramChange program
        ++ s.sendPitchBend bend,
      ∀ b ∈ msg.tail, byteInDataRange b := by
  have hclamp : ∀ x : ℚ, byteInDataRange ((clamp7 x : ℤ) : ℚ) := fun x =>
    ⟨clamp7 x, rfl, le_max_left _ _, max_le (by norm_num) (min_le_left _ _)⟩
  have hlsb : ∀ x : ℚ, byteInDataRange ((pbLsb x : ℤ) : ℚ) := by
    intro x
    have h0 : 0 ≤ pbLsb x := Int.emod_nonneg _ (by norm_num)
    have h1 : pbLsb x < 128 := Int.emod_lt_of_pos _ (by norm_num)
    exact ⟨pbLsb x, rfl, h0, by omega⟩
  have hmsb : ∀ x : ℚ, byteInDataRange ((pbMsb x : ℤ) : ℚ) := by
    intro x
    have h0 : 0 ≤ pbMsb x := Int.emod_nonneg _ (by norm_num)
    have h1 : pbMsb x < 128 := Int.emod_lt_of_pos _ (by norm_num)
    exact ⟨pbMsb x, rfl, h0, by omega⟩
  intro msg hmsg
  cases hport : s.midiOutput with
  | none =>
      simp [BaseSynth.noteOn, BaseSynth.noteOff, BaseSynth.sendCC,
        BaseSynth.sendProgramChange, BaseSynth.sendPitchBend, hport] at hmsg
  | some p =>
      simp only [BaseSynth.noteOn, BaseSynth.noteOff, BaseSynth.sendCC,
        BaseSynth.sendProgramChange, BaseSynth.sendPitchBend, hport,
        List.mem_append, List.mem_singleton] at hmsg
      intro b hb
      rcases hmsg with (((rfl | rfl) | rfl) | rfl) | rfl <;>
        simp only [List.tail_cons, List.mem_cons,
          List.not_mem_nil, or_false] at hb
      · rcases hb with rfl | rfl
        · exact hclamp note
        · exact hclamp velocity
      · rcases hb with rfl | rfl
        · exact hclamp note
        · exact hclamp velocity
      · rcases hb with rfl | rfl
        · exact hclamp controller
        · exact hclamp value
      · rcases hb with rfl
        exact hclamp program
      · rcases hb with rfl | rfl
        · exact hlsb bend
        · exact hmsb bend

/-- Witness for the amended C3: the clamped program byte of
`sendProgramChange(200)` on a bound endpoint, i.e. `127`, is an integer in
`[0,127]`. -/
theorem encoded_dataBytes_in_range_witness :
    byteInDataRange ((127 : ℤ) : ℚ) := by
  have h := encoded_dataBytes_in_range
    (BaseSynth.construct (some thePort) 1) 60 100 1 64 200 0
  have hmem : ([0xC0 + (BaseSynth.construct (some thePort) 1).channel,
        ((clamp7 200 : ℤ) : ℚ)] : List ℚ)
      ∈ (BaseSynth.construct (some thePort) 1).noteOn 60 100
        ++ (BaseSynth.construct (some thePort) 1).noteOff 60 100
        ++ (BaseSynth.construct (some thePort) 1).sendCC 1 64
        ++ (BaseSynth.construct (some thePort) 1).sendProgramChange 200
        ++ (BaseSynth.construct (some thePort) 1).sendPitchBend 0 := by
    simp [BaseSynth.noteOn, BaseSynth.noteOff, BaseSynth.sendCC,
      BaseSynth.sendProgramChange, BaseSynth.sendPitchBend, BaseSynth.construct]
  have hb := h _ hmem ((clamp7 200 : ℤ) : ℚ) (by simp)
  have hcl : clamp7 200 = 127 := by norm_num [clamp7]
  exact hcl ▸ hb

/-- C4: on an endpoint whose port reference is null, every send operation
(noteOn, noteOff, playNote, sendCC, sendProgramChange, sendPitchBend,
sendRawMIDI) writes zero messages — and, all operations being total Lean
functions, raises no error. -/
theorem unbound_send_noop (s : BaseSynth) (h : s.midiOutput = none)
    (note velocity controller value program bend duration : ℚ)
    (data : List ℚ) :
    s.noteOn note velocity = []
    ∧ s.noteOff note velocity = []
    ∧ s.playNote note velocity duration = ([], [])
    ∧ s.sendCC controller value = []
    ∧ s.sendProgramChange program = []
    ∧ s.sendPitchBend bend = []
    ∧ s.sendRawMIDI data = [] := by
  simp [BaseSynth.noteOn, BaseSynth.noteOff, BaseSynth.playNote,
    BaseSynth.sendCC, BaseSynth.sendProgramChange, BaseSynth.sendPitchBend,
    BaseSynth.sendRawMIDI, h]

/-- Witness for C4 on an endpoint concretely constructed with a null port. -/
theorem unbound_send_noop_witness :
    (BaseSynth.construct none 1).noteOn 60 100 = []
    ∧ (BaseSynth.construct none 1).playNote 60 100 50 = ([], [])
    ∧ (BaseSynth.construct none 1).sendRawMIDI [0x90, 60, 100] = [] := by
  have h := unbound_send_noop (BaseSynth.construct none 1) rfl
    60 100 0 0 0 0 50 [0x90, 60, 100]
  exact ⟨h.1, h.2.2.1, h.2.2.2.2.2.2⟩

/-- C5: `connect i` returns false and leaves the whole manager state
unchanged when there is no access handle (and only a successful `init` ever
installs one: a freshly constructed manager has none, and a failed `init`
changes nothing) or when `i` is outside `[0, devices.length)`; with access
and an in-range index it returns true, rebinds only `midiOutput` to
`devices[i]` (which exists), and keeps the access handle and device list. -/
theorem connect_guarded (m : MidiManager) (i : ℤ) :
    (m.midiAccess = none → m.connect i = (false, m))
    ∧ (¬ (0 ≤ i ∧ i < (m.devices.length : ℤ)) → m.connect i = (false, m))
    ∧ (∀ a, m.midiAccess = some a → 0 ≤ i → i < (m.devices.length : ℤ) →
        (m.connect i).1 = true
        ∧ (m.connect i).2.midiOutput = m.devices[i.toNat]?
        ∧ (m.devices[i.toNat]?).isSome = true
        ∧ (m.connect i).2.midiAccess = m.midiAccess
        ∧ (m.connect i).2.devices = m.devices)
    ∧ MidiManager.construct.midiAccess = none
    ∧ (∀ m2 platform, (MidiManager.init m2 platform).1 = false →
        (MidiManager.init m2 platform).2 = m2) := by
  refine ⟨?_, ?_, ?_, rfl, ?_⟩
  · intro h
    simp [MidiManager.connect, h]
  · intro h
    cases ha : m.midiAccess with
    | none => simp [MidiManager.connect, ha]
    | some a => simp [MidiManager.connect, ha, h]
  · intro a ha h0 hlt
    have hnat : i.toNat < m.devices.length := by omega
    simp [MidiManager.connect, ha, h0, hlt, List.getElem?_eq_getElem hnat]
  · intro m2 platform
    cases platform <;> simp [MidiManager.init]

/-- Witness for C5: connect fails on a fresh manager, and succeeds with the
expected binding on a manager holding one device. -/
theorem connect_guarded_witness :
    MidiManager.construct.connect 0 = (false, MidiManager.construct)
    ∧ (theManager.connect 0).1 = true
    ∧ (theManager.connect 0).2.midiOutput = theManager.devices[(0 : ℤ).toNat]?
    ∧ (theManager.connect 5).2 = theManager := by
  have hsucc := (connect_guarded theManager 0).2.2.1 ⟨[thePort]⟩ rfl
    (by decide) (by decide)
  have hoob := (connect_guarded theManager 5).2.1 (by decide)
  exact ⟨(connect_guarded MidiManager.construct 0).1 rfl, hsucc.1,
    hsucc.2.1, by rw [hoob]⟩

/-- C6: the stored 0-based channel is `max 1 (min 16 c) - 1` for every
constructor argument `c`, hence always in `[0,15]`; raw values 0, 1, 16,
17, -5 yield stored channels 0, 0, 15, 15, 0. -/
theorem channel_clamped (port : Option Port) (c : ℚ) :
    (BaseSynth.construct port c).channel = max 1 (min 16 c) - 1
    ∧ 0 ≤ (BaseSynth.construct port c).channel
    ∧ (BaseSynth.construct port c).channel ≤ 15
    ∧ (BaseSynth.construct port 0).channel = 0
    ∧ (BaseSynth.construct port 1).channel = 0
    ∧ (BaseSynth.construct port 16).channel = 15
    ∧ (BaseSynth.construct port 17).channel = 15
    ∧ (BaseSynth.construct port (-5)).channel = 0 := by
  refine ⟨rfl, ?_, ?_, ?_, ?_, ?_, ?_, ?_⟩
  · have h1 : (1 : ℚ) ≤ max 1 (min 16 c) := le_max_left _ _
    show (0 : ℚ) ≤ max 1 (min 16 c) - 1
    linarith
  · have h1 : max 1 (min 16 c) ≤ (16 : ℚ) :=
      max_le (by norm_num) (min_le_left _ _)
    show max 1 (min 16 c) - 1 ≤ (15 : ℚ)
    linarith
  all_goals norm_num [BaseSynth.construct]

/-- C7: `noteOn(60, 100)` on a channel-1 endpoint sends exactly
`[0x90, 60, 100]`, and on a channel-10 endpoint exactly `[0x99, 60, 100]`
(status byte `0x90` plus the stored 0-based channel). -/
theorem noteOn_concrete_bytes :
    (BaseSynth.construct (some thePort) 1).noteOn 60 100
      = [[0x90, 60, 100]]
    ∧ (BaseSynth.construct (some thePort) 10).noteOn 60 100
      = [[0x99, 60, 100]] := by
  constructor <;> norm_num [BaseSynth.construct, BaseSynth.noteOn, clamp7]

/-- C8: `playNote` on a bound endpoint sends the noteOn immediately (a
nonempty write) and schedules exactly one timer carrying the duration and
the note; when that timer fires it sends `noteOff(note, 0)` (nonempty) iff
the endpoint still has a bound port at fire time, and writes nothing if the
endpoint became unbound before the timer fired. -/
theorem playNote_deferred_noteOff (s atFire : BaseSynth) (p : Port)
    (h : s.midiOutput = some p) (note velocity duration : ℚ) :
    (s.playNote note velocity duration).1 = s.noteOn note velocity
    ∧ s.noteOn note velocity ≠ []
    ∧ (s.playNote note velocity duration).2 = [⟨duration, note⟩]
    ∧ (∀ p2, atFire.midiOutput = some p2 →
        Timer.fire ⟨duration, note⟩ atFire = atFire.noteOff note 0
        ∧ atFire.noteOff note 0 ≠ [])
    ∧ (atFire.midiOutput = none → Timer.fire ⟨duration, note⟩ atFire = []) := by
  refine ⟨?_, ?_, ?_, ?_, ?_⟩
  · simp [BaseSynth.playNote, h]
  · simp [BaseSynth.noteOn, h]
  · simp [BaseSynth.playNote, h]
  · intro p2 h2
    exact ⟨by simp [Timer.fire, h2], by simp [BaseSynth.noteOff, h2]⟩
  · intro h2
    simp [Timer.fire, h2]

/-- Witness for C8: a bound endpoint schedules the timer; firing it against
an unbound state writes nothing, against a still-bound state writes the
noteOff. -/
theorem playNote_deferred_noteOff_witness :
    ((BaseSynth.construct (some thePort) 1).playNote 60 100 50).2
      = [⟨50, 60⟩]
    ∧ Timer.fire ⟨50, 60⟩ (BaseSynth.construct none 1) = []
    ∧ Timer.fire ⟨50, 60⟩ (BaseSynth.construct (some thePort) 1)
      = (BaseSynth.construct (some thePort) 1).noteOff 60 0 := by
  have h := playNote_deferred_noteOff (BaseSynth.construct (some thePort) 1)
    (BaseSynth.construct none 1) thePort rfl 60 100 50
  have h2 := playNote_deferred_noteOff (BaseSynth.construct (some thePort) 1)
    (BaseSynth.construct (some thePort) 1) thePort rfl 60 100 50
  exact ⟨h.2.2.1, h.2.2.2.2 rfl, (h2.2.2.2.1 thePort rfl).1⟩

/-- C9: `init` (the source's `initialize`) converts both platform failures
(missing Web MIDI API, denied access) into a false result with the manager
state untouched — in particular a fresh manager stays empty — and never
lets the failure escape (the embedding is a total function); on success it
returns true and populates the device list from the granted access. -/
theorem init_failure_safe (platform : PlatformMIDI) :
    (∀ m : MidiManager, platform = .unsupported ∨ platform = .denied →
        MidiManager.init m platform = (false, m))
    ∧ (platform = .unsupported ∨ platform = .denied →
        MidiManager.init MidiManager.construct platform
          = (false, MidiManager.construct))
    ∧ (∀ a, platform = .granted a →
        MidiManager.init MidiManager.construct platform
          = (true, ⟨some a, none, a.outputs, none⟩)) := by
  refine ⟨?_, ?_, ?_⟩
  · intro m h
    rcases h with rfl | rfl <;> simp [MidiManager.init]
  · intro h
    rcases h with rfl | rfl <;> simp [MidiManager.init]
  · intro a h
    subst h
    simp [MidiManager.init, MidiManager.updateDeviceList, MidiManager.construct]

/-- Witness for C9: denied access on a fresh manager yields false and the
empty state; granted access with one device yields true and that device
enumerated. -/
theorem init_failure_safe_witness :
    MidiManager.init MidiManager.construct .denied
      = (false, MidiManager.construct)
    ∧ MidiManager.init MidiManager.construct (.granted ⟨[thePort]⟩)
      = (true, ⟨some ⟨[thePort]⟩, none, [thePort], none⟩) :=
  ⟨(init_failure_safe .denied).2.1 (Or.inr rfl),
   (init_failure_safe (.granted ⟨[thePort]⟩)).2.2 ⟨[thePort]⟩ rfl⟩

/-- C10: for every note input (fractional and out-of-range included) the
immediate noteOn of `playNote` and the deferred noteOff fired later on the
same endpoint (same channel, port still bound) carry the identical clamped
note byte `clamp7 note`, and the noteOff's velocity byte is 0: the on/off
pair matches at the wire level. -/
theorem playNote_on_off_pair_wire_match (s atFire : BaseSynth) (p p2 : Port)
    (h : s.midiOutput = some p) (h2 : atFire.midiOutput = some p2)
    (hch : atFire.channel = s.channel) (note velocity duration : ℚ) :
    (s.playNote note velocity duration).1
      = [[0x90 + s.channel, (clamp7 note : ℚ), (clamp7 velocity : ℚ)]]
    ∧ Timer.fire ⟨duration, note⟩ atFire
      = [[0x80 + s.channel, (clamp7 note : ℚ), 0]] := by
  have hc0 : clamp7 0 = 0 := by norm_num [clamp7]
  constructor
  · simp [BaseSynth.playNote, BaseSynth.noteOn, h]
  · simp [Timer.fire, BaseSynth.noteOff, h2, hch, hc0]

/-- Witness for C10 at the fractional note 60.5: both the immediate noteOn
and the deferred noteOff carry the clamped note byte 60. -/
theorem playNote_on_off_pair_wire_match_witness :
    ((BaseSynth.construct (some thePort) 1).playNote (121/2) 100 50).1
      = [[0x90 + (BaseSynth.construct (some thePort) 1).channel,
          (clamp7 (121/2) : ℚ), (clamp7 100 : ℚ)]]
    ∧ Timer.fire ⟨50, 121/2⟩ (BaseSynth.construct (some thePort) 1)
      = [[0x80 + (BaseSynth.construct (some thePort) 1).channel,
          (clamp7 (121/2) : ℚ), 0]]
    ∧ clamp7 (121/2) = 60 := by
  have h := playNote_on_off_pair_wire_match
    (BaseSynth.construct (some thePort) 1)
    (BaseSynth.construct (some thePort) 1) thePort thePort rfl rfl rfl
    (121/2) 100 50
  exact ⟨h.1, h.2, by norm_num [clamp7]⟩

end Chasm
